import Mathlib

/-!
Verification development for the eureka excerpt consisting of
`src/eureka/S3_data_reduction/plots_s3.py` and `tests/test_general.py`.

Part 1 models the masked robust statistics routine `medstddev`
(eureka/lib/medstddev.py, exercised by `test_medstddev`).
Part 2 models the filename construction, metadata defaulting and
save/pause event traces of the plotting routines in `plots_s3.py`.

Real arithmetic is carried out over `ℚ`.  The standard deviation is an
irrational square root, so results carry its square (`stdSq`): the code
returns `sqrt stdSq`, and decimal approximations from the tests are
checked through two-sided bounds on their squares.  Non-finite floating
point samples (NaN, positive and negative Inf) are represented by
dedicated constructors of `PVal`; a NaN result of the routine is
represented by `none`.
-/

set_option autoImplicit false

namespace Eureka

/-- A floating point sample: a finite rational value, NaN, or an infinity. -/
inductive PVal where
  | fin (q : ℚ)
  | nan
  | inf
  | ninf
deriving DecidableEq

/-- `np.isfinite`: true exactly on finite values. -/
def PVal.isfinite : PVal → Bool
  | .fin _ => true
  | _ => false

/-- The rational payload of a finite sample (0 for non-finite samples; only
ever used under an `isfinite` guard). -/
def PVal.val : PVal → ℚ
  | .fin q => q
  | _ => 0

/-- Insert a rational into a sorted list (ascending). -/
def insertSorted (x : ℚ) : List ℚ → List ℚ
  | [] => [x]
  | y :: ys => if x ≤ y then x :: y :: ys else y :: insertSorted x ys

/-- Sort a list of rationals ascending (insertion sort). -/
def sortQ (xs : List ℚ) : List ℚ := xs.foldr insertSorted []

/-- Two-pointer walk over a sorted list: called with (`s`, `f`) where `f`
advances twice as fast, it returns the middle element of the list when the
remaining fast part is a singleton (odd length) and the mean of the two
middle elements when it has two elements (even length); 0 when the list is
empty. -/
def medianWalk : List ℚ → List ℚ → ℚ
  | x :: _, [_] => x
  | x :: y :: _, [_, _] => (x + y) / 2
  | _ :: s, _ :: _ :: f => medianWalk s f
  | _, _ => 0

/-- `np.median` over a list of rationals: middle element of the sorted list
for odd length, mean of the two middle elements for even length. -/
def medianQ (xs : List ℚ) : ℚ := medianWalk (sortQ xs) (sortQ xs)

/-- Modelled from the spec: the good samples used by `medstddev`
(eureka/lib/medstddev.py, not part of this excerpt).  Spec section 4.1 step 1
builds an effective mask from the explicit mask and finiteness of each value.
Spec section 3 describes mask entries as marking values to EXCLUDE, but the
repository test (tests/test_general.py, `test_medstddev`) pins the opposite
polarity: over values [1,3,4,5,6,7,7] the mask [1,1,1,0,0,0,0] must yield
median 3.0, the median of the first three values, so a nonzero/true mask
entry SELECTS a good value.  The model follows the test, the only executable
authority in the excerpt: a sample is good iff its mask entry is true and its
value is finite. -/
def goodValsAux : List PVal → List Bool → List ℚ
  | [], _ => []
  | _ :: _, [] => []
  | v :: vs, b :: bs =>
    if b && v.isfinite then v.val :: goodValsAux vs bs else goodValsAux vs bs

/-- The good samples of a data sequence under an optional explicit mask; a
missing mask defaults to all-good (spec section 4.1 step 1). -/
def goodVals (data : List PVal) (mask : Option (List Bool)) : List ℚ :=
  goodValsAux data (mask.getD (List.replicate data.length true))

/-- Result of `medstddev`: `stdSq` is the square of the returned standard
deviation (`none` models a NaN standard deviation) and `med` the returned
median (`none` models NaN). -/
structure MedStd where
  stdSq : Option ℚ
  med : Option ℚ
deriving DecidableEq

/-- Modelled from the spec: steps 2-6 of the `medstddev` algorithm
(spec section 4.1) as a function of the good samples.
If no good value remains both outputs are NaN; a single good value gives
standard deviation 0.0 and that value as median; otherwise the median of the
good values and the sample standard deviation about the median with
denominator `n_good - 1`. -/
def medstddevOfGood (good : List ℚ) : MedStd :=
  if good.length = 0 then ⟨none, none⟩
  else if good.length = 1 then ⟨some 0, some (good.headD 0)⟩
  else
    let med := medianQ good
    ⟨some (((good.map fun q => (q - med) * (q - med)).sum) /
            ((good.length : ℚ) - 1)),
     some med⟩

/-- Modelled from the spec: `medstddev(data, mask, medi=True)`
(eureka/lib/medstddev.py, not part of this excerpt; spec section 4.1).
The `medi` flag only selects whether the median is part of the return value;
the claims all exercise `medi=True`, so the model always returns the pair. -/
def medstddev (data : List PVal) (mask : Option (List Bool)) : MedStd :=
  medstddevOfGood (goodVals data mask)

/-- The good samples as described by the SPEC words for claim C1: a sample
contributes iff its mask entry is false/zero and its value is finite.  Kept
separate from `goodVals` so the two readings can be compared. -/
def specClaimGoodVals : List PVal → List Bool → List ℚ
  | [], _ => []
  | _ :: _, [] => []
  | v :: vs, b :: bs =>
    if !b && v.isfinite then v.val :: specClaimGoodVals vs bs
    else specClaimGoodVals vs bs

/-- Value sequence of the first `test_medstddev` case. -/
def testVals : List PVal :=
  [.fin 1, .fin 3, .fin 4, .fin 5, .fin 6, .fin 7, .fin 7]

/-- Mask of the second `test_medstddev` case (1 rendered as `true`). -/
def testMask : List Bool := [true, true, true, false, false, false, false]

/-- Value sequence of the automatic-invalid-masking `test_medstddev` case. -/
def testValsInvalid : List PVal := [.nan, .fin 1, .fin 4, .inf, .fin 6]

/-! Part 2: the plotting routines of `plots_s3.py`.  Only their effects are
modelled: metadata defaulting, filename construction, and the ordered trace
of file-save, interactive-pause and warning events.  The rendering calls
themselves (imshow, plot, colorbar, ...) write no files and touch no
metadata, so they do not appear in the traces. -/

/-- Decimal digit characters of `n`, most significant first; `fuel` bounds
the recursion depth (any `fuel > n` is enough). -/
def natDigitsAux : Nat → Nat → List Char
  | 0, _ => []
  | fuel + 1, n =>
    if n < 10 then [Nat.digitChar n]
    else natDigitsAux fuel (n / 10) ++ [Nat.digitChar (n % 10)]

/-- The decimal representation of a natural number, as produced by the
Python builtin `str` on a nonnegative integer. -/
def natRepr (n : Nat) : String := ⟨natDigitsAux (n + 1) n⟩

/-- Python `str.zfill`: left-pad with the zero character to width `w`
(no-op when the string is already at least that long; the indices padded by
the code are nonnegative, so the sign handling of `zfill` never fires). -/
def zfill (s : String) (w : Nat) : String :=
  ⟨List.replicate (w - s.length) (Char.ofNat 48) ++ s.data⟩

/-- The zero-padding width `int(np.floor(np.log10(n)) + 1)` computed by the
plotting routines from a configured maximum count `n`: for `n ≥ 1` the
floor of the real logarithm is exactly `Nat.log 10 n`, so this is the number
of decimal digits of `n`. -/
def padWidth (n : Nat) : Nat := Nat.log 10 n + 1

/-- The metadata object fields consulted by the plotting routines.  An
attribute that may be absent (`hasattr` false) is `none`; one present with
the Python value `None` is `some none`. -/
structure Meta where
  vmin : Option (Option ℚ)
  vmax : Option (Option ℚ)
  time_axis : Option (Option String)
  hide_plots : Bool
  outputdir : String
  n_int : Nat
  num_data_files : Nat
  int_start : Nat
  int_end : Nat
deriving DecidableEq

/-- Modelled from the spec: `figure_filetype` is imported from
`eureka.lib.plots`, which is not part of this excerpt; the spec calls it
"a configured image file extension".  Fixed to ".png"; no claim depends on
the concrete extension. -/
def figure_filetype : String := ".png"

/-- The path separator `os.sep`, fixed to the POSIX value. -/
def osSep : String := "/"

/-- `file_number` as computed in `plots_s3.py`:
`str(m).zfill(int(np.floor(np.log10(meta.num_data_files)) + 1))`. -/
def file_number (meta : Meta) (m : Nat) : String :=
  zfill (natRepr m) (padWidth meta.num_data_files)

/-- `int_number` as computed in `plots_s3.py`:
`str(n).zfill(int(np.floor(np.log10(meta.n_int)) + 1))`. -/
def int_number (meta : Meta) (n : Nat) : String :=
  zfill (natRepr n) (padWidth meta.n_int)

/-- Filename of Fig 3101 (`lc_nodriftcorr`): note the hyphen between the
figure tag and the label. -/
def lc_nodriftcorr_fname : String :=
  "figs" ++ osSep ++ "fig3101-2D_LC" ++ figure_filetype

/-- Filename of Figs 3301 (`image_and_background`). -/
def image_and_background_fname (meta : Meta) (m n : Nat) : String :=
  "figs" ++ osSep ++ "fig3301_file" ++ file_number meta m ++ "_int" ++
    int_number meta n ++ "_ImageAndBackground" ++ figure_filetype

/-- Filename of Fig 3105 (`drift_2D`). -/
def drift_2D_fname : String :=
  "figs" ++ osSep ++ "fig3105_Drift2D" ++ figure_filetype

/-- Filename of Figs 3302 (`optimal_spectrum`). -/
def optimal_spectrum_fname (meta : Meta) (m n : Nat) : String :=
  "figs" ++ osSep ++ "fig3302_file" ++ file_number meta m ++ "_int" ++
    int_number meta n ++ "_Spectrum" ++ figure_filetype

/-- Filename of Figs 3102 (`source_position`). -/
def source_position_fname (meta : Meta) (m n : Nat) : String :=
  "figs" ++ osSep ++ "fig3102_file" ++ file_number meta m ++ "_int" ++
    int_number meta n ++ "_source_pos" ++ figure_filetype

/-- Filename of Figs 3303 (`profile`). -/
def profile_fname (meta : Meta) (m n : Nat) : String :=
  "figs" ++ osSep ++ "fig3303_file" ++ file_number meta m ++ "_int" ++
    int_number meta n ++ "_Profile" ++ figure_filetype

/-- Filename of Figs 3501 (`subdata`); `nx` is the number of columns of the
frame, from which the column padding width is computed. -/
def subdata_fname (meta : Meta) (m n i nx : Nat) : String :=
  "figs" ++ osSep ++ "fig3501_file" ++ file_number meta m ++ "_int" ++
    int_number meta n ++ "_col" ++ zfill (natRepr i) (padWidth nx) ++
    "_subdata" ++ figure_filetype

/-- Filename of Fig 3103 (`driftypos`). -/
def driftypos_fname : String :=
  "figs" ++ osSep ++ "fig3103_DriftYPos" ++ figure_filetype

/-- Filename of Fig 3104 (`driftywidth`). -/
def driftywidth_fname : String :=
  "figs" ++ osSep ++ "fig3104_DriftYWidth" ++ figure_filetype

/-- Filename of Fig 3304 (`residualBackground`). -/
def residualBackground_fname (meta : Meta) (m : Nat) : String :=
  "figs" ++ osSep ++ "fig3304_file" ++ file_number meta m ++
    "_ResidualBG" ++ figure_filetype

/-- Filename of Fig 3106 (`curvature`). -/
def curvature_fname : String :=
  "figs" ++ osSep ++ "fig3106_Curvature" ++ figure_filetype

/-- Filename of Fig 3401 (`median_frame`). -/
def median_frame_fname : String :=
  "figs" ++ osSep ++ "fig3401_MedianFrame" ++ figure_filetype

/-- Observable side effects of a plotting routine, in program order. -/
inductive Event where
  | save (path : String)
  | pause (t : ℚ)
  | warn (msg : String)
deriving DecidableEq

/-- The trailing `if not meta.hide_plots: plt.pause(t)` of every routine. -/
def pauseIf (hide : Bool) (t : ℚ) : List Event :=
  if hide then [] else [Event.pause t]

/-- The warning printed by `lc_nodriftcorr` for an invalid `time_axis`. -/
def timeAxisWarning : String :=
  "WARNING: meta.time_axis is not one of [y, x]! Using y by default."

/-- Lines 35-36 of `plots_s3.py`:
`if not hasattr(meta, 'vmin') or meta.vmin is None: meta.vmin = 0.97`. -/
def lcDefaultVmin (meta : Meta) : Meta :=
  if meta.vmin = none ∨ meta.vmin = some none then
    { meta with vmin := some (some (97 / 100)) }
  else meta

/-- Lines 37-38 of `plots_s3.py`:
`if not hasattr(meta, 'vmax') or meta.vmin is None: meta.vmax = 1.03`
(the second disjunct reads `vmin`, exactly as in the source). -/
def lcDefaultVmax (meta : Meta) : Meta :=
  if meta.vmax = none ∨ meta.vmin = some none then
    { meta with vmax := some (some (103 / 100)) }
  else meta

/-- Lines 39-44 of `plots_s3.py`: default a missing or `None` `time_axis`
to "y" silently; replace any other value outside {"y","x"} by "y" with a
printed warning. -/
def lcResolveTimeAxis (meta : Meta) : Meta × List Event :=
  match meta.time_axis with
  | none => ({ meta with time_axis := some (some "y") }, [])
  | some none => ({ meta with time_axis := some (some "y") }, [])
  | some (some s) =>
    if s = "y" ∨ s = "x" then (meta, [])
    else ({ meta with time_axis := some (some "y") },
          [Event.warn timeAxisWarning])

/-- `lc_nodriftcorr` (Fig 3101): metadata defaulting followed by one file
save and the optional interactive pause; returns the mutated metadata
object and the event trace. -/
def lc_nodriftcorr (meta : Meta) : Meta × List Event :=
  let m2 := lcDefaultVmax (lcDefaultVmin meta)
  let r := lcResolveTimeAxis m2
  (r.1, r.2 ++ [Event.save (r.1.outputdir ++ lc_nodriftcorr_fname)] ++
    pauseIf r.1.hide_plots (1 / 5))

/-- `image_and_background` (Figs 3301): one save (and optional pause) per
integration `n` in `range(meta.int_end - meta.int_start)`. -/
def image_and_background (meta : Meta) (m : Nat) : List Event :=
  ((List.range (meta.int_end - meta.int_start)).map fun n =>
    Event.save (meta.outputdir ++ image_and_background_fname meta m n) ::
      pauseIf meta.hide_plots (1 / 5)).flatten

/-- `drift_2D` (Fig 3105). -/
def drift_2D (meta : Meta) : List Event :=
  [Event.save (meta.outputdir ++ drift_2D_fname)] ++
    pauseIf meta.hide_plots (1 / 5)

/-- `optimal_spectrum` (Figs 3302). -/
def optimal_spectrum (meta : Meta) (m n : Nat) : List Event :=
  [Event.save (meta.outputdir ++ optimal_spectrum_fname meta m n)] ++
    pauseIf meta.hide_plots (1 / 5)

/-- `source_position` (Figs 3102). -/
def source_position (meta : Meta) (m n : Nat) : List Event :=
  [Event.save (meta.outputdir ++ source_position_fname meta m n)] ++
    pauseIf meta.hide_plots (1 / 5)

/-- `profile` (Figs 3303). -/
def profile (meta : Meta) (m n : Nat) : List Event :=
  [Event.save (meta.outputdir ++ profile_fname meta m n)] ++
    pauseIf meta.hide_plots (1 / 5)

/-- `subdata` (Figs 3501). -/
def subdata (meta : Meta) (m n i nx : Nat) : List Event :=
  [Event.save (meta.outputdir ++ subdata_fname meta m n i nx)] ++
    pauseIf meta.hide_plots (1 / 10)

/-- `driftypos` (Fig 3103). -/
def driftypos (meta : Meta) : List Event :=
  [Event.save (meta.outputdir ++ driftypos_fname)] ++
    pauseIf meta.hide_plots (1 / 5)

/-- `driftywidth` (Fig 3104). -/
def driftywidth (meta : Meta) : List Event :=
  [Event.save (meta.outputdir ++ driftywidth_fname)] ++
    pauseIf meta.hide_plots (1 / 5)

/-- `residualBackground` (Fig 3304). -/
def residualBackground (meta : Meta) (m : Nat) : List Event :=
  [Event.save (meta.outputdir ++ residualBackground_fname meta m)] ++
    pauseIf meta.hide_plots (1 / 10)

/-- `curvature` (Fig 3106). -/
def curvature (meta : Meta) : List Event :=
  [Event.save (meta.outputdir ++ curvature_fname)] ++
    pauseIf meta.hide_plots (1 / 10)

/-- `median_frame` (Fig 3401). -/
def median_frame (meta : Meta) : List Event :=
  [Event.save (meta.outputdir ++ median_frame_fname)] ++
    pauseIf meta.hide_plots (1 / 10)

/-- The file paths written by a trace, in order. -/
def savedPaths : List Event → List String
  | [] => []
  | .save p :: tr => p :: savedPaths tr
  | .pause _ :: tr => savedPaths tr
  | .warn _ :: tr => savedPaths tr

/-- Number of warnings in a trace. -/
def warnCount : List Event → Nat
  | [] => 0
  | .warn _ :: tr => warnCount tr + 1
  | .save _ :: tr => warnCount tr
  | .pause _ :: tr => warnCount tr

/-- Number of pauses in a trace. -/
def pauseCount : List Event → Nat
  | [] => 0
  | .pause _ :: tr => pauseCount tr + 1
  | .save _ :: tr => pauseCount tr
  | .warn _ :: tr => pauseCount tr

/-- Scan of a trace: `seen` records whether a save has occurred; every pause
must find `seen = true`. -/
def pauseOkAux : Bool → List Event → Bool
  | _, [] => true
  | _, .save _ :: tr => pauseOkAux true tr
  | seen, .pause _ :: tr => seen && pauseOkAux seen tr
  | seen, .warn _ :: tr => pauseOkAux seen tr

/-- Every pause event in the trace happens after some earlier save event. -/
def pauseOk (tr : List Event) : Bool := pauseOkAux false tr

/-- `np.ma.masked_where(cond, a)`, elementwise over flattened arrays: an
entry is masked (excluded from display and masked statistics, rendered `none`
here) exactly where the condition is true. -/
def maskedWhere (cond : List Bool) (vals : List ℚ) : List (Option ℚ) :=
  List.zipWith (fun c v => if c then none else some v) cond vals

/-- Lines 92-93 and 472 of `plots_s3.py`:
`np.ma.masked_where(~data.mask.values, <array>.values)` as used by both
`image_and_background` and `residualBackground`, elementwise over the
flattened arrays. -/
def subdataMasked (dmask : List Bool) (flux : List ℚ) : List (Option ℚ) :=
  maskedWhere (dmask.map fun b => !b) flux

/-- `np.ma.median` over a masked array: the median of the unmasked
entries (masked entries contribute nothing). -/
def maMedian (xs : List (Option ℚ)) : ℚ := medianQ (xs.filterMap id)

/-- A metadata object whose `vmax` attribute is present with the Python
value None while `vmin` holds a number. -/
def metaC9 : Meta :=
  ⟨some (some 2), some none, some (some "y"), true, "run/", 10, 10, 0, 1⟩

/-- A metadata object whose `time_axis` attribute is present with the
Python value None. -/
def metaTA : Meta :=
  ⟨some (some 1), some (some 2), some none, true, "run/", 10, 10, 0, 1⟩

/-- Witness for `time_axis_resolution` at a metadata object whose
`time_axis` holds the string "z". -/
def metaTZ : Meta :=
  ⟨some (some 1), some (some 2), some (some "z"), true, "run/", 10, 10, 0,
    1⟩

/-- A metadata object of a run with interactive display suppressed. -/
def metaHide : Meta := ⟨none, none, none, true, "out/", 5, 5, 0, 3⟩

/-! Helper lemmas. -/

/-- Strings with equal character data are equal. -/
theorem strExt {a b : String} (h : a.data = b.data) : a = b := by
  cases a
  cases b
  exact congrArg String.mk h

/-- Character data of an appended string. -/
theorem strDataAppend (a b : String) : (a ++ b).data = a.data ++ b.data :=
  rfl

/-- String append is associative. -/
theorem strAppendAssoc (a b c : String) : a ++ b ++ c = a ++ (b ++ c) := by
  apply strExt
  simp [strDataAppend, List.append_assoc]

/-- Merging two adjacent literal segments in a right-nested append. -/
theorem strSplice {a b c : String} (h : a ++ b = c) (x : String) :
    a ++ (b ++ x) = c ++ x := by
  rw [← strAppendAssoc, h]

/-- Length of `natDigitsAux` when the fuel suffices. -/
theorem natDigitsAux_length :
    ∀ fuel n : Nat, n < fuel →
      (natDigitsAux fuel n).length = Nat.log 10 n + 1 := by
  intro fuel
  induction fuel with
  | zero => intro n h; exact absurd h (by omega)
  | succ fuel ih =>
    intro n h
    rw [show natDigitsAux (fuel + 1) n = if n < 10 then [Nat.digitChar n]
        else natDigitsAux fuel (n / 10) ++ [Nat.digitChar (n % 10)]
      from rfl]
    by_cases h10 : n < 10
    · rw [if_pos h10]
      simp [Nat.log_of_lt h10]
    · have hd : n / 10 < n := Nat.div_lt_self (by omega) (by omega)
      have hlog : Nat.log 10 (n / 10) = Nat.log 10 n - 1 :=
        Nat.log_div_base 10 n
      have hpos : 0 < Nat.log 10 n := Nat.log_pos (by omega) (by omega)
      rw [if_neg h10, List.length_append, ih (n / 10) (by omega)]
      simp only [List.length_singleton]
      omega

/-- The decimal representation of `n` has `Nat.log 10 n + 1` characters. -/
theorem natRepr_length (n : Nat) :
    (natRepr n).length = Nat.log 10 n + 1 := by
  have h : (natRepr n).length = (natDigitsAux (n + 1) n).length := rfl
  rw [h, natDigitsAux_length (n + 1) n (by omega)]

/-- Length of a zero-filled string. -/
theorem zfill_length (s : String) (w : Nat) :
    (zfill s w).length = max w s.length := by
  have h : (zfill s w).length =
      (List.replicate (w - s.length) (Char.ofNat 48) ++ s.data).length :=
    rfl
  rw [h, List.length_append, List.length_replicate]
  have h2 : s.length = s.data.length := rfl
  omega

/-- Evaluation of the decimal logarithm at 100. -/
theorem log10_100 : Nat.log 10 100 = 2 :=
  Nat.log_eq_of_pow_le_of_lt_pow (by norm_num) (by norm_num)

/-- Evaluation of the decimal logarithm at 1000. -/
theorem log10_1000 : Nat.log 10 1000 = 3 :=
  Nat.log_eq_of_pow_le_of_lt_pow (by norm_num) (by norm_num)

/-- Saved paths distribute over trace concatenation. -/
theorem savedPaths_append (a b : List Event) :
    savedPaths (a ++ b) = savedPaths a ++ savedPaths b := by
  induction a with
  | nil => rfl
  | cons e a ih => cases e <;> simp [savedPaths, ih]

/-- An optional pause saves nothing. -/
theorem savedPaths_pauseIf (h : Bool) (t : ℚ) :
    savedPaths (pauseIf h t) = [] := by
  cases h <;> simp [pauseIf, savedPaths]

/-- Warning count distributes over trace concatenation. -/
theorem warnCount_append (a b : List Event) :
    warnCount (a ++ b) = warnCount a + warnCount b := by
  induction a with
  | nil => simp [warnCount]
  | cons e a ih => cases e <;> simp [warnCount, ih] <;> omega

/-- An optional pause warns nothing. -/
theorem warnCount_pauseIf (h : Bool) (t : ℚ) :
    warnCount (pauseIf h t) = 0 := by
  cases h <;> simp [pauseIf, warnCount]

/-- Pause count distributes over trace concatenation. -/
theorem pauseCount_append (a b : List Event) :
    pauseCount (a ++ b) = pauseCount a + pauseCount b := by
  induction a with
  | nil => simp [pauseCount]
  | cons e a ih => cases e <;> simp [pauseCount, ih] <;> omega

/-- Pause count of an optional pause. -/
theorem pauseCount_pauseIf (h : Bool) (t : ℚ) :
    pauseCount (pauseIf h t) = if h then 0 else 1 := by
  cases h <;> simp [pauseIf, pauseCount]

/-- After a save has been seen, an optional pause keeps the scan valid. -/
theorem pauseOkAux_true_pauseIf (h : Bool) (t : ℚ) (b : List Event) :
    pauseOkAux true (pauseIf h t ++ b) = pauseOkAux true b := by
  cases h <;> simp [pauseIf, pauseOkAux]

/-- The scan accepts the empty remainder. -/
theorem pauseOkAux_true_pauseIf_nil (h : Bool) (t : ℚ) :
    pauseOkAux true (pauseIf h t) = true := by
  cases h <;> simp [pauseIf, pauseOkAux]

/-- Saved paths of a save-then-optional-pause loop body sequence. -/
theorem savedPaths_blocks (f : Nat → String) (hide : Bool) (t : ℚ) :
    ∀ l : List Nat,
      savedPaths ((l.map fun k => Event.save (f k) :: pauseIf hide t)).flatten
        = l.map f := by
  intro l
  induction l with
  | nil => rfl
  | cons k l ih =>
    simp [savedPaths, savedPaths_append, savedPaths_pauseIf, ih]

/-- The scan accepts any save-then-optional-pause loop, from any state. -/
theorem pauseOkAux_blocks (f : Nat → String) (hide : Bool) (t : ℚ) :
    ∀ (l : List Nat) (seen : Bool),
      pauseOkAux seen
        ((l.map fun k => Event.save (f k) :: pauseIf hide t)).flatten
        = true := by
  intro l
  induction l with
  | nil => intro seen; rfl
  | cons k l ih =>
    intro seen
    simp only [List.map_cons, List.flatten_cons, List.cons_append,
      pauseOkAux]
    cases hide
    · simpa [pauseIf, pauseOkAux] using ih true
    · simpa [pauseIf] using ih true

/-- With interactive display suppressed the loop never pauses. -/
theorem pauseCount_blocks_hidden (f : Nat → String) (t : ℚ) :
    ∀ l : List Nat,
      pauseCount ((l.map fun k => Event.save (f k) :: pauseIf true t)).flatten
        = 0 := by
  intro l
  induction l with
  | nil => rfl
  | cons k l ih =>
    simp [pauseCount, pauseCount_append, pauseCount_pauseIf, ih]

/-- Auxiliary: wrapping a list of rationals as finite samples and running the
good-sample extraction with the default all-good mask gives the list back. -/
theorem goodValsAux_map_fin (l : List ℚ) :
    goodValsAux (l.map PVal.fin)
      (List.replicate (l.map PVal.fin).length true) = l := by
  induction l with
  | nil => rfl
  | cons q l ih =>
      simpa [goodValsAux, PVal.isfinite, PVal.val, List.replicate_succ]
        using ih

/-- Auxiliary: `goodVals` of re-wrapped good values with no mask. -/
theorem goodVals_map_fin (l : List ℚ) :
    goodVals (l.map PVal.fin) none = l := by
  simpa [goodVals] using goodValsAux_map_fin l

/-- C1 (counterexample): the claim reads the mask as marking values to
exclude (a sample contributes iff its mask entry is false/zero and its value
is finite).  On the exact input of the repository test
(values [1,3,4,5,6,7,7], mask [1,1,1,0,0,0,0]) the test asserts median 3.0,
the median of the three values whose mask entry is 1; under the polarity of
the claim the good values would be [5,6,7,7] with median 6.5.  So the claim,
as stated, is false on the code. -/
theorem medstddev_mask_polarity_cex :
    (medstddev testVals (some testMask)).med = some 3 ∧
    specClaimGoodVals testVals testMask = [5, 6, 7, 7] ∧
    medianQ (specClaimGoodVals testVals testMask) = 13 / 2 ∧
    (medstddev testVals (some testMask)).med ≠
      some (medianQ (specClaimGoodVals testVals testMask)) := by
  refine ⟨?_, ?_, ?_, ?_⟩ <;>
    norm_num [medstddev, medstddevOfGood, goodVals, goodValsAux, medianQ,
      sortQ, insertSorted, medianWalk, specClaimGoodVals, testVals,
      testMask, PVal.isfinite, PVal.val]

/-- C1 (amended): a sample contributes to the median and standard deviation
returned by `medstddev` iff its mask entry is TRUE/nonzero and its value is
finite: the result equals the result of running the routine on exactly those
samples (re-wrapped as finite values, with no mask), so masked-out and
non-finite samples never contribute and every good sample does. -/
theorem medstddev_mask_polarity (data : List PVal) (mask : List Bool)
    (h : mask.length = data.length) :
    medstddev data (some mask) =
      medstddev ((goodVals data (some mask)).map PVal.fin) none := by
  unfold medstddev
  rw [goodVals_map_fin]

/-- Witness for `medstddev_mask_polarity` at the repository test input; the
final pair of inequalities checks that the standard deviation there,
`sqrt (5/2)`, lies between 1.58113883008 and 1.58113883009, matching the
approximation 1.58113883008 asserted by the test and the spec. -/
theorem medstddev_mask_polarity_witness :
    testMask.length = testVals.length ∧
    medstddev testVals (some testMask) =
      medstddev ((goodVals testVals (some testMask)).map PVal.fin) none ∧
    medstddev testVals (some testMask) = ⟨some (5 / 2), some 3⟩ ∧
    158113883008 * 158113883008 * 2 < 5 * 10 ^ 22 ∧
    5 * 10 ^ 22 < 158113883009 * 158113883009 * 2 :=
  ⟨by norm_num [testMask, testVals],
   medstddev_mask_polarity testVals testMask
     (by norm_num [testMask, testVals]),
   by
     norm_num [medstddev, medstddevOfGood, goodVals, goodValsAux, medianQ,
       sortQ, insertSorted, medianWalk, testVals, testMask, PVal.isfinite,
       PVal.val],
   by norm_num, by norm_num⟩

/-- C2: with at least two good values, `medstddev` returns the median of the
good values and the sample standard deviation about that median with
denominator `n_good - 1` (here stated through the square of the standard
deviation, which is exactly the displayed quotient). -/
theorem medstddev_formula (data : List PVal) (mask : Option (List Bool))
    (h : 2 ≤ (goodVals data mask).length) :
    medstddev data mask =
      ⟨some ((((goodVals data mask).map fun q =>
            (q - medianQ (goodVals data mask)) *
              (q - medianQ (goodVals data mask))).sum) /
          (((goodVals data mask).length : ℚ) - 1)),
       some (medianQ (goodVals data mask))⟩ := by
  unfold medstddev medstddevOfGood
  rw [if_neg (by omega), if_neg (by omega)]

/-- Witness for `medstddev_formula` at the two concrete inputs named by the
claim: `medstddev([NaN,1,4,Inf,6])` excludes the non-finite values with no
explicit mask given and returns median 4 and standard deviation
`sqrt (13/2)`, which the two inequalities on squares locate between
2.549509756796392 and 2.549509756796393, matching the claimed approximation
2.5495097567963922; `medstddev([1,3,4,5,6,7,7])` returns median 5 and
standard deviation `sqrt 5`, located between 2.2360679774 and 2.2360679776,
matching the claimed approximation 2.2360679775. -/
theorem medstddev_formula_witness :
    2 ≤ (goodVals testValsInvalid none).length ∧
    goodVals testValsInvalid none = [1, 4, 6] ∧
    medstddev testValsInvalid none = ⟨some (13 / 2), some 4⟩ ∧
    medstddev testVals none = ⟨some 5, some 5⟩ ∧
    (2549509756796392 * 2549509756796392 * 2 < 13 * 10 ^ 30 ∧
      13 * 10 ^ 30 < 2549509756796393 * 2549509756796393 * 2) ∧
    (22360679774 * 22360679774 < 5 * 10 ^ 20 ∧
      5 * 10 ^ 20 < 22360679776 * 22360679776) := by
  refine ⟨by norm_num [goodVals, goodValsAux, testValsInvalid,
      PVal.isfinite, List.replicate],
    by norm_num [goodVals, goodValsAux, testValsInvalid, PVal.isfinite,
      PVal.val, List.replicate], ?_,
    by norm_num [medstddev, medstddevOfGood, goodVals, goodValsAux, medianQ,
      sortQ, insertSorted, medianWalk, testVals, PVal.isfinite, PVal.val,
      List.replicate],
    by norm_num, by norm_num⟩
  rw [medstddev_formula testValsInvalid none
    (by norm_num [goodVals, goodValsAux, testValsInvalid, PVal.isfinite,
      List.replicate])]
  norm_num [goodVals, goodValsAux, medianQ, sortQ, insertSorted, medianWalk,
    testValsInvalid, PVal.isfinite, PVal.val, List.replicate]

/-- C3: `medstddev` is a total function (the model never raises) and signals
degenerate inputs through sentinel values: with zero good values both the
standard deviation and the median are NaN (`none`), and with exactly one
good value the standard deviation is 0.0 and the median is that value. -/
theorem medstddev_degenerate (data : List PVal)
    (mask : Option (List Bool)) :
    (goodVals data mask = [] → medstddev data mask = ⟨none, none⟩) ∧
    ∀ v : ℚ, goodVals data mask = [v] →
      medstddev data mask = ⟨some 0, some v⟩ := by
  constructor
  · intro h
    simp [medstddev, medstddevOfGood, h]
  · intro v h
    simp [medstddev, medstddevOfGood, h]

/-- Witness for `medstddev_degenerate` at the critical cases of the
repository test: values [1,4,6] with mask [0,0,1] leave the single good
value 6 (std 0.0, median 6.0), and with mask [0,0,0] no good value remains
(both outputs NaN). -/
theorem medstddev_degenerate_witness :
    medstddev [.fin 1, .fin 4, .fin 6] (some [false, false, true]) =
      ⟨some 0, some 6⟩ ∧
    medstddev [.fin 1, .fin 4, .fin 6] (some [false, false, false]) =
      ⟨none, none⟩ :=
  ⟨(medstddev_degenerate _ _).2 6
      (by norm_num [goodVals, goodValsAux, PVal.isfinite, PVal.val]),
   (medstddev_degenerate _ _).1
      (by norm_num [goodVals, goodValsAux, PVal.isfinite, PVal.val])⟩

/-- Effect of the vmin defaulting step on `vmin`. -/
theorem lcDefaultVmin_vmin (meta : Meta) :
    (lcDefaultVmin meta).vmin =
      if meta.vmin = none ∨ meta.vmin = some none then
        some (some (97 / 100))
      else meta.vmin := by
  by_cases h : meta.vmin = none ∨ meta.vmin = some none <;>
    simp [lcDefaultVmin, h]

/-- The vmin defaulting step touches no other field. -/
theorem lcDefaultVmin_keeps (meta : Meta) :
    (lcDefaultVmin meta).vmax = meta.vmax ∧
    (lcDefaultVmin meta).time_axis = meta.time_axis ∧
    (lcDefaultVmin meta).hide_plots = meta.hide_plots ∧
    (lcDefaultVmin meta).outputdir = meta.outputdir := by
  by_cases h : meta.vmin = none ∨ meta.vmin = some none <;>
    simp [lcDefaultVmin, h]

/-- After the vmin defaulting step, `vmin` is never the Python value None:
a missing or None `vmin` has just been replaced by 0.97. -/
theorem lcDefaultVmin_vmin_ne (meta : Meta) :
    (lcDefaultVmin meta).vmin ≠ some none := by
  unfold lcDefaultVmin
  by_cases h : meta.vmin = none ∨ meta.vmin = some none
  · rw [if_pos h]
    simp
  · rw [if_neg h]
    exact fun hc => h (Or.inr hc)

/-- Effect of the vmax defaulting step on `vmax`: note that the second
disjunct of its condition reads `vmin`, as in the source. -/
theorem lcDefaultVmax_vmax (meta : Meta) :
    (lcDefaultVmax meta).vmax =
      if meta.vmax = none ∨ meta.vmin = some none then
        some (some (103 / 100))
      else meta.vmax := by
  by_cases h : meta.vmax = none ∨ meta.vmin = some none <;>
    simp [lcDefaultVmax, h]

/-- The vmax defaulting step touches no other field. -/
theorem lcDefaultVmax_keeps (meta : Meta) :
    (lcDefaultVmax meta).vmin = meta.vmin ∧
    (lcDefaultVmax meta).time_axis = meta.time_axis ∧
    (lcDefaultVmax meta).hide_plots = meta.hide_plots ∧
    (lcDefaultVmax meta).outputdir = meta.outputdir := by
  by_cases h : meta.vmax = none ∨ meta.vmin = some none <;>
    simp [lcDefaultVmax, h]

/-- The time-axis resolution step touches no field other than
`time_axis`. -/
theorem lcResolve_keeps (mm : Meta) :
    (lcResolveTimeAxis mm).1.vmin = mm.vmin ∧
    (lcResolveTimeAxis mm).1.vmax = mm.vmax ∧
    (lcResolveTimeAxis mm).1.hide_plots = mm.hide_plots ∧
    (lcResolveTimeAxis mm).1.outputdir = mm.outputdir := by
  unfold lcResolveTimeAxis
  cases h : mm.time_axis with
  | none => simp
  | some ta =>
    cases ta with
    | none => simp
    | some s =>
      by_cases hc : s = "y" ∨ s = "x"
      · simp [hc]
      · simp [hc]

/-- The trace of the time-axis resolution step is empty or one warning. -/
theorem lcResolve_shape (mm : Meta) :
    (lcResolveTimeAxis mm).2 = [] ∨
      (lcResolveTimeAxis mm).2 = [Event.warn timeAxisWarning] := by
  unfold lcResolveTimeAxis
  cases h : mm.time_axis with
  | none => simp
  | some ta =>
    cases ta with
    | none => simp
    | some s =>
      by_cases hc : s = "y" ∨ s = "x"
      · simp [hc]
      · simp [hc]

/-- Case analysis of the time-axis resolution step: the result is always
"y" or "x"; a present value that is a string other than "y"/"x" is replaced
by "y" with exactly one warning; a missing or None value is replaced by "y"
with no warning. -/
theorem lcResolve_cases (mm : Meta) :
    ((lcResolveTimeAxis mm).1.time_axis = some (some "y") ∨
      (lcResolveTimeAxis mm).1.time_axis = some (some "x")) ∧
    (∀ s : String, mm.time_axis = some (some s) → ¬ s = "y" → ¬ s = "x" →
      (lcResolveTimeAxis mm).1.time_axis = some (some "y") ∧
      warnCount (lcResolveTimeAxis mm).2 = 1) ∧
    ((mm.time_axis = none ∨ mm.time_axis = some none) →
      (lcResolveTimeAxis mm).1.time_axis = some (some "y") ∧
      warnCount (lcResolveTimeAxis mm).2 = 0) := by
  unfold lcResolveTimeAxis
  cases h : mm.time_axis with
  | none => simp [h, warnCount]
  | some ta =>
    cases ta with
    | none => simp [h, warnCount]
    | some s =>
      by_cases hc : s = "y" ∨ s = "x"
      · dsimp only
        refine ⟨?_, ?_, by simp [h]⟩
        · rcases hc with hy | hx
          · subst hy
            rw [if_pos (Or.inl rfl)]
            exact Or.inl h
          · subst hx
            rw [if_pos (Or.inr rfl)]
            exact Or.inr h
        · intro u hu hy hx
          rcases hc with hv | hv <;>
            (subst hv; cases Option.some.inj (Option.some.inj hu))
          · exact absurd rfl hy
          · exact absurd rfl hx
      · dsimp only
        rw [if_neg hc]
        refine ⟨Or.inl rfl, fun u hu hy hx => ⟨rfl, rfl⟩, by simp [h]⟩

/-- All fields of the metadata object after `lc_nodriftcorr` other than the
three defaulted ones. -/
theorem lc_nodriftcorr_keeps (meta : Meta) :
    (lc_nodriftcorr meta).1.hide_plots = meta.hide_plots ∧
    (lc_nodriftcorr meta).1.outputdir = meta.outputdir := by
  constructor
  · show (lcResolveTimeAxis (lcDefaultVmax (lcDefaultVmin meta))).1.hide_plots
        = meta.hide_plots
    rw [(lcResolve_keeps _).2.2.1, (lcDefaultVmax_keeps _).2.2.1,
      (lcDefaultVmin_keeps _).2.2.1]
  · show (lcResolveTimeAxis (lcDefaultVmax (lcDefaultVmin meta))).1.outputdir
        = meta.outputdir
    rw [(lcResolve_keeps _).2.2.2, (lcDefaultVmax_keeps _).2.2.2,
      (lcDefaultVmin_keeps _).2.2.2]

/-- Warnings of `lc_nodriftcorr` all come from the time-axis step. -/
theorem lc_nodriftcorr_warnCount (meta : Meta) :
    warnCount (lc_nodriftcorr meta).2 =
      warnCount
        (lcResolveTimeAxis (lcDefaultVmax (lcDefaultVmin meta))).2 := by
  show warnCount (_ ++ [Event.save _] ++ pauseIf _ _) = _
  rw [warnCount_append, warnCount_append, warnCount_pauseIf]
  simp [warnCount]

/-- C9: the color-scale defaulting of `lc_nodriftcorr` is asymmetric.
`vmin` becomes 0.97 exactly when the attribute is absent or None.  The
condition guarding the `vmax` default reads `meta.vmin`, and since the
`vmin` default has already run, `vmin` can no longer be None there, so
`vmax` becomes 1.03 exactly when the `vmax` attribute is absent — in
particular (claim conclusion, checked on the concrete `metaC9`) a present
`vmax` holding None next to a numeric `vmin` is left equal to None. -/
theorem lc_color_scale_defaults (meta : Meta) :
    ((lc_nodriftcorr meta).1.vmin =
      if meta.vmin = none ∨ meta.vmin = some none then
        some (some (97 / 100))
      else meta.vmin) ∧
    ((lc_nodriftcorr meta).1.vmax =
      if meta.vmax = none then some (some (103 / 100)) else meta.vmax) ∧
    metaC9.vmin = some (some 2) ∧ metaC9.vmax = some none ∧
    (lc_nodriftcorr metaC9).1.vmax = some none := by
  refine ⟨?_, ?_, rfl, rfl, ?_⟩
  · show (lcResolveTimeAxis (lcDefaultVmax (lcDefaultVmin meta))).1.vmin = _
    rw [(lcResolve_keeps _).1, (lcDefaultVmax_keeps _).1,
      lcDefaultVmin_vmin]
  · show (lcResolveTimeAxis (lcDefaultVmax (lcDefaultVmin meta))).1.vmax = _
    rw [(lcResolve_keeps _).2.1, lcDefaultVmax_vmax,
      (lcDefaultVmin_keeps _).1]
    have hne := lcDefaultVmin_vmin_ne meta
    by_cases h : meta.vmax = none
    · rw [if_pos (Or.inl h), if_pos h]
    · rw [if_neg ?_, if_neg h]
      rintro (hc | hc)
      · exact h hc
      · exact hne hc
  · decide

/-- C7 (counterexample): the claim says every `time_axis` value outside
the set of the two strings "y" and "x" is replaced with a warning.  The
value None is outside that set, yet `lc_nodriftcorr` replaces it silently:
on `metaTA` (whose `time_axis` is present and None, hence not "y" and not
"x") the routine emits zero warnings while still defaulting to "y". -/
theorem time_axis_warning_cex :
    metaTA.time_axis = some none ∧
    (some none : Option (Option String)) ≠ some (some "y") ∧
    (some none : Option (Option String)) ≠ some (some "x") ∧
    (lc_nodriftcorr metaTA).1.time_axis = some (some "y") ∧
    warnCount (lc_nodriftcorr metaTA).2 = 0 := by
  refine ⟨rfl, by decide, by decide, ?_, ?_⟩ <;> decide

/-- C7 (amended): after `lc_nodriftcorr`, `meta.time_axis` is always one of
"y" or "x"; a `time_axis` that is present as a string outside {"y","x"} is
replaced by the default "y" with exactly one warning; however a missing or
None `time_axis` is defaulted to "y" silently (no warning), and the routine
completes in every case (the model is a total function). -/
theorem time_axis_resolution (meta : Meta) :
    ((lc_nodriftcorr meta).1.time_axis = some (some "y") ∨
      (lc_nodriftcorr meta).1.time_axis = some (some "x")) ∧
    (∀ s : String, meta.time_axis = some (some s) → ¬ s = "y" → ¬ s = "x" →
      (lc_nodriftcorr meta).1.time_axis = some (some "y") ∧
      warnCount (lc_nodriftcorr meta).2 = 1) ∧
    ((meta.time_axis = none ∨ meta.time_axis = some none) →
      (lc_nodriftcorr meta).1.time_axis = some (some "y") ∧
      warnCount (lc_nodriftcorr meta).2 = 0) := by
  have hta : (lcDefaultVmax (lcDefaultVmin meta)).time_axis =
      meta.time_axis := by
    rw [(lcDefaultVmax_keeps _).2.1, (lcDefaultVmin_keeps _).2.1]
  have hres := lcResolve_cases (lcDefaultVmax (lcDefaultVmin meta))
  rw [hta] at hres
  have heq : (lc_nodriftcorr meta).1.time_axis =
      (lcResolveTimeAxis (lcDefaultVmax (lcDefaultVmin meta))).1.time_axis :=
    rfl
  refine ⟨?_, ?_, ?_⟩
  · rw [heq]
    exact hres.1
  · intro s hs hy hx
    have h := hres.2.1 s hs hy hx
    exact ⟨by rw [heq, h.1], by rw [lc_nodriftcorr_warnCount, h.2]⟩
  · intro h0
    have h := hres.2.2 h0
    exact ⟨by rw [heq, h.1], by rw [lc_nodriftcorr_warnCount, h.2]⟩

/-- Witness for `time_axis_resolution`: the invalid string "z" is replaced
by "y" with exactly one warning. -/
theorem time_axis_resolution_witness :
    metaTZ.time_axis = some (some "z") ∧
    (lc_nodriftcorr metaTZ).1.time_axis = some (some "y") ∧
    warnCount (lc_nodriftcorr metaTZ).2 = 1 :=
  ⟨rfl,
    ((time_axis_resolution metaTZ).2.1 "z" rfl (by decide) (by decide)).1,
    ((time_axis_resolution metaTZ).2.1 "z" rfl (by decide) (by decide)).2⟩

/-- Evaluation of the decimal representation at 7. -/
theorem natRepr_7 : natRepr 7 = "7" := by decide

/-- C4 (counterexample): with `num_data_files = 100` the padding width the
code computes is `floor(log10 100) + 1 = 3`, so file index 7 renders as
"007", not the "07" the claim states; with 1000 files it renders as "0007",
not "007".  The claimed width is one digit narrower than the code in both
named instances. -/
theorem padding_width_cex :
    padWidth 100 = 3 ∧ padWidth 1000 = 4 ∧
    zfill (natRepr 7) (padWidth 100) = "007" ∧
    zfill (natRepr 7) (padWidth 100) ≠ "07" ∧
    zfill (natRepr 7) (padWidth 1000) = "0007" ∧
    zfill (natRepr 7) (padWidth 1000) ≠ "007" := by
  have h100 : padWidth 100 = 3 := by rw [padWidth, log10_100]
  have h1000 : padWidth 1000 = 4 := by rw [padWidth, log10_1000]
  refine ⟨h100, h1000, ?_, ?_, ?_, ?_⟩
  · rw [natRepr_7, h100]
    decide
  · rw [natRepr_7, h100]
    decide
  · rw [natRepr_7, h1000]
    decide
  · rw [natRepr_7, h1000]
    decide

/-- C4 (amended): the zero-padding width is computed from the configured
maximum count `N` as `floor(log10 N) + 1`, the number of decimal digits of
`N` itself, so every index up to `N` renders with exactly that fixed digit
count per run: with 100 data files, file index 7 renders as "007"; with
1000, as "0007". -/
theorem padding_width (m N : Nat) (h1 : 1 ≤ N) (h2 : m ≤ N) :
    (zfill (natRepr m) (padWidth N)).length = Nat.log 10 N + 1 := by
  rw [zfill_length, natRepr_length, padWidth]
  have hmono := @Nat.log_mono_right 10 m N h2
  omega

/-- Witness for `padding_width`: at the concrete instances of the claim the
rendered index strings are "007" and "0007", of the widths the theorem
computes. -/
theorem padding_width_witness :
    1 ≤ 100 ∧ 7 ≤ 100 ∧
    (zfill (natRepr 7) (padWidth 100)).length = Nat.log 10 100 + 1 ∧
    zfill (natRepr 7) (padWidth 100) = "007" ∧
    zfill (natRepr 7) (padWidth 1000) = "0007" := by
  refine ⟨by omega, by omega,
    padding_width 7 100 (by omega) (by omega), ?_, ?_⟩
  · rw [natRepr_7, padWidth, log10_100]
    decide
  · rw [natRepr_7, padWidth, log10_1000]
    decide

/-- C5 (counterexample): the file written by `lc_nodriftcorr` is
`figs/fig3101-2D_LC<ext>`: the character after the 4-digit figure tag 3101
(index 12 of the name) is a hyphen, not the underscore the claimed pattern
`fig<NNNN>[...]_<Label><ext>` requires, and no decomposition of the name as
`figs/fig3101_<rest>` exists. -/
theorem fname_pattern_cex :
    lc_nodriftcorr_fname = "figs/fig3101-2D_LC.png" ∧
    lc_nodriftcorr_fname.data[12]? = some (Char.ofNat 45) ∧
    Char.ofNat 45 ≠ Char.ofNat 95 ∧
    ¬ ∃ rest : String, lc_nodriftcorr_fname = "figs/fig3101_" ++ rest := by
  refine ⟨by decide, by decide, by decide, ?_⟩
  rintro ⟨r, hr⟩
  have h1 : lc_nodriftcorr_fname.data[12]? = some (Char.ofNat 45) := by
    decide
  rw [hr] at h1
  have h2 : ("figs/fig3101_" ++ r).data[12]? = some (Char.ofNat 95) := by
    rw [strDataAppend, List.getElem?_append_left (by decide)]
    decide
  rw [h2] at h1
  exact absurd (Option.some.inj h1) (by decide)

/-- C5 (amended): every plotting routine except `lc_nodriftcorr` writes its
file at `<outputdir>/figs/fig<NNNN>[_file<F>][_int<I>][_col<C>]_<Label><ext>`
with an underscore before the label, the 4-digit tag and the applicable
zero-padded components shown explicitly below; `lc_nodriftcorr` instead
joins its tag 3101 and its label `2D_LC` with a hyphen. -/
theorem fname_patterns (meta : Meta) (m n i nx : Nat) :
    image_and_background_fname meta m n =
      "figs" ++ osSep ++ "fig" ++ "3301" ++ "_file" ++ file_number meta m ++
        "_int" ++ int_number meta n ++ "_" ++ "ImageAndBackground" ++
        figure_filetype ∧
    optimal_spectrum_fname meta m n =
      "figs" ++ osSep ++ "fig" ++ "3302" ++ "_file" ++ file_number meta m ++
        "_int" ++ int_number meta n ++ "_" ++ "Spectrum" ++
        figure_filetype ∧
    source_position_fname meta m n =
      "figs" ++ osSep ++ "fig" ++ "3102" ++ "_file" ++ file_number meta m ++
        "_int" ++ int_number meta n ++ "_" ++ "source_pos" ++
        figure_filetype ∧
    profile_fname meta m n =
      "figs" ++ osSep ++ "fig" ++ "3303" ++ "_file" ++ file_number meta m ++
        "_int" ++ int_number meta n ++ "_" ++ "Profile" ++
        figure_filetype ∧
    subdata_fname meta m n i nx =
      "figs" ++ osSep ++ "fig" ++ "3501" ++ "_file" ++ file_number meta m ++
        "_int" ++ int_number meta n ++ "_col" ++
        zfill (natRepr i) (padWidth nx) ++ "_" ++ "subdata" ++
        figure_filetype ∧
    residualBackground_fname meta m =
      "figs" ++ osSep ++ "fig" ++ "3304" ++ "_file" ++ file_number meta m ++
        "_" ++ "ResidualBG" ++ figure_filetype ∧
    drift_2D_fname =
      "figs" ++ osSep ++ "fig" ++ "3105" ++ "_" ++ "Drift2D" ++
        figure_filetype ∧
    driftypos_fname =
      "figs" ++ osSep ++ "fig" ++ "3103" ++ "_" ++ "DriftYPos" ++
        figure_filetype ∧
    driftywidth_fname =
      "figs" ++ osSep ++ "fig" ++ "3104" ++ "_" ++ "DriftYWidth" ++
        figure_filetype ∧
    curvature_fname =
      "figs" ++ osSep ++ "fig" ++ "3106" ++ "_" ++ "Curvature" ++
        figure_filetype ∧
    median_frame_fname =
      "figs" ++ osSep ++ "fig" ++ "3401" ++ "_" ++ "MedianFrame" ++
        figure_filetype ∧
    lc_nodriftcorr_fname =
      "figs" ++ osSep ++ "fig" ++ "3101" ++ "-" ++ "2D_LC" ++
        figure_filetype := by
  refine ⟨?_, ?_, ?_, ?_, ?_, ?_, by decide, by decide, by decide,
    by decide, by decide, by decide⟩
  · unfold image_and_background_fname
    simp only [strAppendAssoc]
    rw [strSplice (by decide : ("fig" : String) ++ "3301" = "fig3301"),
      strSplice
        (by decide : ("fig3301" : String) ++ "_file" = "fig3301_file"),
      strSplice (by decide :
        ("_" : String) ++ "ImageAndBackground" = "_ImageAndBackground")]
  · unfold optimal_spectrum_fname
    simp only [strAppendAssoc]
    rw [strSplice (by decide : ("fig" : String) ++ "3302" = "fig3302"),
      strSplice
        (by decide : ("fig3302" : String) ++ "_file" = "fig3302_file"),
      strSplice (by decide : ("_" : String) ++ "Spectrum" = "_Spectrum")]
  · unfold source_position_fname
    simp only [strAppendAssoc]
    rw [strSplice (by decide : ("fig" : String) ++ "3102" = "fig3102"),
      strSplice
        (by decide : ("fig3102" : String) ++ "_file" = "fig3102_file"),
      strSplice
        (by decide : ("_" : String) ++ "source_pos" = "_source_pos")]
  · unfold profile_fname
    simp only [strAppendAssoc]
    rw [strSplice (by decide : ("fig" : String) ++ "3303" = "fig3303"),
      strSplice
        (by decide : ("fig3303" : String) ++ "_file" = "fig3303_file"),
      strSplice (by decide : ("_" : String) ++ "Profile" = "_Profile")]
  · unfold subdata_fname
    simp only [strAppendAssoc]
    rw [strSplice (by decide : ("fig" : String) ++ "3501" = "fig3501"),
      strSplice
        (by decide : ("fig3501" : String) ++ "_file" = "fig3501_file"),
      strSplice (by decide : ("_" : String) ++ "subdata" = "_subdata")]
  · unfold residualBackground_fname
    simp only [strAppendAssoc]
    rw [strSplice (by decide : ("fig" : String) ++ "3304" = "fig3304"),
      strSplice
        (by decide : ("fig3304" : String) ++ "_file" = "fig3304_file"),
      strSplice
        (by decide : ("_" : String) ++ "ResidualBG" = "_ResidualBG")]

/-- The trace of `lc_nodriftcorr`, split into the warning prefix, the
single save, and the optional pause. -/
theorem lc_trace_parts (meta : Meta) :
    (lc_nodriftcorr meta).2 =
      (lcResolveTimeAxis (lcDefaultVmax (lcDefaultVmin meta))).2 ++
        [Event.save ((lc_nodriftcorr meta).1.outputdir ++
          lc_nodriftcorr_fname)] ++
        pauseIf meta.hide_plots (1 / 5) := by
  have h1 : (lc_nodriftcorr meta).1.hide_plots = meta.hide_plots :=
    (lc_nodriftcorr_keeps meta).1
  conv_lhs => rw [show (lc_nodriftcorr meta).2 =
    (lcResolveTimeAxis (lcDefaultVmax (lcDefaultVmin meta))).2 ++
      [Event.save ((lc_nodriftcorr meta).1.outputdir ++
        lc_nodriftcorr_fname)] ++
      pauseIf ((lc_nodriftcorr meta).1.hide_plots) (1 / 5) from rfl]
  rw [h1]

/-- C6: every plotting routine writes exactly one file per invocation, at a
path which is the stated explicit function of the run output directory, the
fixed figure tag and the indices, except `image_and_background`, which
writes exactly one file per integration in the configured range:
`meta.int_end - meta.int_start` files, one for each `n` in that range.  All
paths being functions of the inputs, re-invocation with identical inputs
yields the identical paths (overwriting, not accumulating). -/
theorem files_per_invocation (meta : Meta) (m n i nx : Nat) :
    savedPaths (lc_nodriftcorr meta).2 =
      [meta.outputdir ++ lc_nodriftcorr_fname] ∧
    savedPaths (image_and_background meta m) =
      (List.range (meta.int_end - meta.int_start)).map
        (fun k => meta.outputdir ++ image_and_background_fname meta m k) ∧
    (savedPaths (image_and_background meta m)).length =
      meta.int_end - meta.int_start ∧
    savedPaths (drift_2D meta) = [meta.outputdir ++ drift_2D_fname] ∧
    savedPaths (optimal_spectrum meta m n) =
      [meta.outputdir ++ optimal_spectrum_fname meta m n] ∧
    savedPaths (source_position meta m n) =
      [meta.outputdir ++ source_position_fname meta m n] ∧
    savedPaths (profile meta m n) =
      [meta.outputdir ++ profile_fname meta m n] ∧
    savedPaths (subdata meta m n i nx) =
      [meta.outputdir ++ subdata_fname meta m n i nx] ∧
    savedPaths (driftypos meta) = [meta.outputdir ++ driftypos_fname] ∧
    savedPaths (driftywidth meta) =
      [meta.outputdir ++ driftywidth_fname] ∧
    savedPaths (residualBackground meta m) =
      [meta.outputdir ++ residualBackground_fname meta m] ∧
    savedPaths (curvature meta) = [meta.outputdir ++ curvature_fname] ∧
    savedPaths (median_frame meta) =
      [meta.outputdir ++ median_frame_fname] := by
  refine ⟨?_, ?_, ?_, ?_, ?_, ?_, ?_, ?_, ?_, ?_, ?_, ?_, ?_⟩
  · rw [lc_trace_parts]
    rcases lcResolve_shape (lcDefaultVmax (lcDefaultVmin meta)) with h | h
      <;> rw [h]
      <;> simp [savedPaths_append, savedPaths_pauseIf, savedPaths,
        (lc_nodriftcorr_keeps meta).2]
  · unfold image_and_background
    exact savedPaths_blocks _ _ _ _
  · unfold image_and_background
    rw [savedPaths_blocks]
    simp
  all_goals
    simp [drift_2D, optimal_spectrum, source_position, profile, subdata,
      driftypos, driftywidth, residualBackground, curvature, median_frame,
      savedPaths_append, savedPaths_pauseIf, savedPaths]

/-- C8: in every plotting routine, pauses happen only after a file save
(`pauseOk`), and when the run suppresses interactive display
(`meta.hide_plots` true) no pause happens at all. -/
theorem pause_discipline (meta : Meta) (m n i nx : Nat) :
    (meta.hide_plots = true →
      pauseCount (lc_nodriftcorr meta).2 = 0 ∧
      pauseCount (image_and_background meta m) = 0 ∧
      pauseCount (drift_2D meta) = 0 ∧
      pauseCount (optimal_spectrum meta m n) = 0 ∧
      pauseCount (source_position meta m n) = 0 ∧
      pauseCount (profile meta m n) = 0 ∧
      pauseCount (subdata meta m n i nx) = 0 ∧
      pauseCount (driftypos meta) = 0 ∧
      pauseCount (driftywidth meta) = 0 ∧
      pauseCount (residualBackground meta m) = 0 ∧
      pauseCount (curvature meta) = 0 ∧
      pauseCount (median_frame meta) = 0) ∧
    (pauseOk (lc_nodriftcorr meta).2 = true ∧
      pauseOk (image_and_background meta m) = true ∧
      pauseOk (drift_2D meta) = true ∧
      pauseOk (optimal_spectrum meta m n) = true ∧
      pauseOk (source_position meta m n) = true ∧
      pauseOk (profile meta m n) = true ∧
      pauseOk (subdata meta m n i nx) = true ∧
      pauseOk (driftypos meta) = true ∧
      pauseOk (driftywidth meta) = true ∧
      pauseOk (residualBackground meta m) = true ∧
      pauseOk (curvature meta) = true ∧
      pauseOk (median_frame meta) = true) := by
  constructor
  · intro hh
    refine ⟨?_, ?_, ?_, ?_, ?_, ?_, ?_, ?_, ?_, ?_, ?_, ?_⟩
    · rw [lc_trace_parts, hh]
      rcases lcResolve_shape (lcDefaultVmax (lcDefaultVmin meta)) with h | h
        <;> rw [h]
        <;> simp [pauseCount_append, pauseCount_pauseIf, pauseCount]
    · unfold image_and_background
      rw [hh]
      exact pauseCount_blocks_hidden _ _ _
    all_goals
      simp [drift_2D, optimal_spectrum, source_position, profile, subdata,
        driftypos, driftywidth, residualBackground, curvature,
        median_frame, hh, pauseCount_append, pauseCount_pauseIf,
        pauseCount]
  · refine ⟨?_, ?_, ?_, ?_, ?_, ?_, ?_, ?_, ?_, ?_, ?_, ?_⟩
    · unfold pauseOk
      rw [lc_trace_parts]
      rcases lcResolve_shape (lcDefaultVmax (lcDefaultVmin meta)) with h | h
        <;> rw [h]
        <;> simp [pauseOkAux, pauseOkAux_true_pauseIf_nil]
    · unfold pauseOk image_and_background
      exact pauseOkAux_blocks _ _ _ _ false
    all_goals
      simp [pauseOk, drift_2D, optimal_spectrum, source_position, profile,
        subdata, driftypos, driftywidth, residualBackground, curvature,
        median_frame, pauseOkAux, pauseOkAux_true_pauseIf_nil]

/-- Witness for `pause_discipline` at a concrete metadata object with
`hide_plots` true. -/
theorem pause_discipline_witness :
    metaHide.hide_plots = true ∧
    pauseCount (lc_nodriftcorr metaHide).2 = 0 ∧
    pauseCount (image_and_background metaHide 0) = 0 ∧
    pauseOk (lc_nodriftcorr metaHide).2 = true :=
  ⟨rfl, ((pause_discipline metaHide 0 0 0 0).1 rfl).1,
    ((pause_discipline metaHide 0 0 0 0).1 rfl).2.1,
    (pause_discipline metaHide 0 0 0 0).2.1⟩

/-- C10 (counterexample): the dataset mask and the statistics mask have the
SAME polarity, not opposite ones.  A display pixel with mask entry true is
kept (`subdataMasked` leaves it unmasked), and a sample with mask entry
true/1 is also kept by the statistics routine (`goodVals` retains it), so
the claimed opposite-polarity reading, which would make display inclusion
at a mask entry equivalent to statistics exclusion at that same entry, is
false at the entry `true`. -/
theorem display_mask_polarity_cex :
    subdataMasked [true] [5] = [some 5] ∧
    goodVals [PVal.fin 5] (some [true]) = [5] ∧
    ¬ (subdataMasked [true] [5] = [some 5] ↔
        goodVals [PVal.fin 5] (some [true]) = []) := by
  have h1 : subdataMasked [true] [5] = [some 5] := by
    norm_num [subdataMasked, maskedWhere]
  have h3 : goodVals [PVal.fin 5] (some [true]) = [5] := by
    norm_num [goodVals, goodValsAux, PVal.isfinite, PVal.val]
  refine ⟨h1, h3, ?_⟩
  intro hiff
  have h2 := hiff.mp h1
  rw [h3] at h2
  exact absurd h2 (by simp)

/-- C10 (amended): in `image_and_background` and `residualBackground` the
pixels excluded from display and from the masked background statistics are
exactly those whose `data.mask` entry is false (both mask where
`~data.mask`), so the dataset mask marks good pixels with true — the same
polarity as the statistics routine, whose mask also selects good samples
with true/nonzero entries. -/
theorem display_mask_polarity (dmask : List Bool) (flux : List ℚ) :
    subdataMasked dmask flux =
      List.zipWith (fun b v => if b then some v else none) dmask flux ∧
    (∀ b : Bool, ∀ q : ℚ,
      goodVals [PVal.fin q] (some [b]) = if b then [q] else []) := by
  constructor
  · induction dmask generalizing flux with
    | nil => simp [subdataMasked, maskedWhere]
    | cons b bs ih =>
      cases flux with
      | nil => simp [subdataMasked, maskedWhere]
      | cons v vs =>
        cases b <;> simpa [subdataMasked, maskedWhere] using ih vs
  · intro b q
    cases b <;> simp [goodVals, goodValsAux, PVal.isfinite, PVal.val]

end Eureka
